import Mathlib

/-!
Verification of the secure wallet adapter's authenticated messaging core
(`src/adapter.ts`): shared-secret installation, per-message authentication
(freshness, anti-replay, MAC check), response signing, nonce-ledger cleanup,
and the secure message-handling pipeline around them.

Modelling conventions:
* The HMAC-SHA256 primitive (`crypto.subtle`) is an external platform
  capability; it appears as an explicit function parameter
  `hmac : String → String → String` (canonical string → secret → hex digest).
* JavaScript `Date.now()` is modelled as an explicit `now : Int` parameter.
* JavaScript's `undefined` versus `null` distinction is preserved where the
  code depends on it (`Option` for possibly-absent fields, `DataField` for
  the response `data` slot, whose initial value in the source is `null`).
* The wallet provider (`window.ethereum`) is an external collaborator,
  modelled as an abstract request function that may fail with a coded error.
-/

namespace SecureAdapter

/-- Free-form `params` payload, restricted to the optional fields the
dispatcher reads (`message`, `transaction`, `chainId`, `networkConfig`),
each possibly absent (JS `undefined`). -/
structure Params where
  message : Option String
  transaction : Option String
  chainId : Option String
  networkConfig : Option String
deriving DecidableEq

/-- JS truthiness of a possibly-absent string (`!x` in the source): an
absent field and the empty string are both falsy. -/
def strTruthy : Option String → Bool
  | none => false
  | some s => if s = "" then false else true

/-- JS truthiness of a possibly-absent number (`!x` in the source): an
absent field and `0` are both falsy. -/
def intTruthy : Option Int → Bool
  | none => false
  | some n => if n = 0 then false else true

/-- JSON string literal (quote wrapping; payload strings in this development
carry no characters that would need escaping). -/
def jstr (s : String) : String := "\x22" ++ s ++ "\x22"

/-- One `key:value` member of a JSON object. -/
def jsonKV (k v : String) : String := jstr k ++ ":" ++ v

/-- A possibly-absent string member of `JSON.stringify` output: an
`undefined` value omits the key entirely. -/
def jsonOptField (k : String) (v : Option String) : List String :=
  match v with
  | none => []
  | some s => [jsonKV k (jstr s)]

/-- Wrap serialized members into a JSON object. -/
def jsonObj (fields : List String) : String :=
  "\x7b" ++ String.intercalate "," fields ++ "\x7d"

/-- Model of `JSON.stringify` on a `params` object, members in declaration order,
`undefined` members omitted. -/
def serializeParams (p : Params) : String :=
  jsonObj (jsonOptField "message" p.message ++
    jsonOptField "transaction" p.transaction ++
    jsonOptField "chainId" p.chainId ++
    jsonOptField "networkConfig" p.networkConfig)

/-- The `AuthenticatedMessage` interface of the source: a fully typed
inbound message (the shape the code casts to after its structural checks). -/
structure AuthenticatedMessage where
  requestId : String
  action : String
  chain : String
  params : Option Params
  timestamp : Int
  nonce : String
  signature : String
deriving DecidableEq

/-- Model of `JSON.stringify(messageWithoutSignature)`: the canonical serialization
of all fields except `signature`, in source field order (`requestId`,
`action`, `chain`, `params`, `timestamp`, `nonce`); an absent `params`
(JS `undefined`) omits the key, exactly as `JSON.stringify` does. -/
def serializeUnsigned (m : AuthenticatedMessage) : String :=
  jsonObj ([jsonKV "requestId" (jstr m.requestId),
    jsonKV "action" (jstr m.action),
    jsonKV "chain" (jstr m.chain)] ++
    (match m.params with
     | none => []
     | some p => [jsonKV "params" (serializeParams p)]) ++
    [jsonKV "timestamp" (toString m.timestamp),
     jsonKV "nonce" (jstr m.nonce)])

/-- The `MessageAuthenticator` class state: shared secret (empty string when
none is configured, matching the source's falsy check), the used-nonce
ledger (a JS `Set`), and the freshness window in milliseconds. -/
structure MessageAuthenticator where
  sharedSecret : String
  usedNonces : List String
  maxMessageAge : Int
deriving DecidableEq

/-- State of `new MessageAuthenticator()`: no secret, empty ledger, 5-minute window. -/
def MessageAuthenticator.start : MessageAuthenticator := ⟨"", [], 300000⟩

/-- Model of `setSharedSecret`: stores the secret and clears the nonce ledger. -/
def setSharedSecret (a : MessageAuthenticator) (secret : String) :
    MessageAuthenticator :=
  ⟨secret, [], a.maxMessageAge⟩

/-- Model of `setMaxMessageAge`: replaces the freshness window. -/
def setMaxMessageAge (a : MessageAuthenticator) (ageInMs : Int) :
    MessageAuthenticator :=
  ⟨a.sharedSecret, a.usedNonces, ageInMs⟩

/-- JS `Set.prototype.add`: inserts only if not already present. -/
def setInsert (x : String) (l : List String) : List String :=
  if x ∈ l then l else x :: l

/-- Model of `verifyIncomingMessage`: secret-configured check, absolute-age freshness
check, nonce-uniqueness check, then HMAC recomputation over the canonical
serialization; on success the nonce is recorded.  Returns the boolean result
together with the authenticator state after the call (the source mutates the
singleton's `usedNonces` in place). -/
def verifyIncomingMessage (hmac : String → String → String) (now : Int)
    (a : MessageAuthenticator) (m : AuthenticatedMessage) :
    Bool × MessageAuthenticator :=
  if a.sharedSecret = "" then (false, a)
  else if a.maxMessageAge < |now - m.timestamp| then (false, a)
  else if m.nonce ∈ a.usedNonces then (false, a)
  else if hmac (serializeUnsigned m) a.sharedSecret ≠ m.signature then (false, a)
  else (true, ⟨a.sharedSecret, setInsert m.nonce a.usedNonces, a.maxMessageAge⟩)

/-- A JS value produced by the wallet provider or the dispatcher.
`balanceOf hexWei` stands for `parseInt(hexWei, 16) / Math.pow(10, 18)`, a
floating-point number represented symbolically by its input string (no claim
inspects the numeric value). -/
inductive JV where
  | str (s : String)
  | arr (elems : List String)
  | obj (fields : List (String × String))
  | balanceOf (hexWei : String)
deriving DecidableEq

/-- The response `data` slot: JS distinguishes an `undefined` member
(omitted by `JSON.stringify`) from a `null` member (serialized as `null`).
The source initializes `data` to `null`. -/
inductive DataField where
  | undef
  | null
  | val (v : JV)
deriving DecidableEq

/-- Whether the field appears in `JSON.stringify` output (equivalently, as a
defined property of the posted object): `undefined` is absent, `null` and
proper values are present. -/
def DataField.present : DataField → Bool
  | .undef => false
  | _ => true

/-- Serialization of a provider value inside `JSON.stringify` output.  The
`balanceOf` case is symbolic, matching its symbolic numeric value. -/
def serializeJV : JV → String
  | .str s => jstr s
  | .arr l => "[" ++ String.intercalate "," (l.map jstr) ++ "]"
  | .obj fs => jsonObj (fs.map fun kv => jsonKV kv.1 (jstr kv.2))
  | .balanceOf h => "<balance " ++ h ++ ">"

/-- The `AdapterResponse` envelope the dispatcher produces: `error` is a
string or `undefined`; `data` starts out `null` in the source. -/
structure AdapterResponse where
  requestId : String
  success : Bool
  data : DataField
  error : Option String
deriving DecidableEq

/-- The `SecureResponse` interface: the envelope extended with the signing
timestamp and the MAC. -/
structure SecureResponse where
  requestId : String
  success : Bool
  data : DataField
  error : Option String
  timestamp : Int
  signature : String
deriving DecidableEq

/-- Model of `JSON.stringify(responseData)` for
`\x7brequestId, success, data, error, timestamp\x7d`: `undefined` members
are omitted, a `null` member prints `null`. -/
def serializeResponseData (requestId : String) (success : Bool)
    (data : DataField) (error : Option String) (timestamp : Int) : String :=
  jsonObj ([jsonKV "requestId" (jstr requestId),
    jsonKV "success" (if success then "true" else "false")] ++
    (match data with
     | .undef => []
     | .null => [jsonKV "data" "null"]
     | .val v => [jsonKV "data" (serializeJV v)]) ++
    jsonOptField "error" error ++
    [jsonKV "timestamp" (toString timestamp)])

/-- Model of `signResponse`: throws (modelled as `Except.error`) when no secret is
configured; otherwise stamps the current time and MACs the canonical
serialization of the envelope fields plus timestamp. -/
def signResponse (hmac : String → String → String) (now : Int)
    (a : MessageAuthenticator) (r : AdapterResponse) :
    Except String SecureResponse :=
  if a.sharedSecret = "" then
    .error "No shared secret configured for signing response"
  else
    .ok ⟨r.requestId, r.success, r.data, r.error, now,
      hmac (serializeResponseData r.requestId r.success r.data r.error now)
        a.sharedSecret⟩

/-- Model of `cleanupOldNonces`: clears the ledger entirely once its size exceeds
1000; otherwise leaves the authenticator untouched. -/
def cleanupOldNonces (a : MessageAuthenticator) : MessageAuthenticator :=
  if 1000 < a.usedNonces.length then ⟨a.sharedSecret, [], a.maxMessageAge⟩
  else a

/-- An error thrown inside a wallet operation: provider rejections carry a
numeric `code` (the dispatcher branches on `4902`); plain `Error` objects
carry only a message. -/
structure JErr where
  code : Option Int
  message : String
deriving DecidableEq

/-- The external wallet provider: whether `window.ethereum` exists, and the
`ethereum.request` capability (method name and a rendering of its params). -/
structure Eth where
  installed : Bool
  request : String → List String → Except JErr JV

/-- The bits of `window` state the dispatcher reads and writes: the
`walletDisconnected` flag and the custom events dispatched so far. -/
structure WindowState where
  walletDisconnected : Bool
  events : List String
deriving DecidableEq

/-- The `AdapterRequest` interface: the authentication-stripped request the
dispatcher operates on. -/
structure AdapterRequest where
  requestId : String
  action : String
  chain : String
  params : Option Params
deriving DecidableEq

/-- Model of `window.dispatchEvent(new CustomEvent(name, ...))`. -/
def pushEvent (w : WindowState) (name : String) : WindowState :=
  ⟨w.walletDisconnected, w.events ++ [name]⟩

/-- Read a provider value as the account array `eth_accounts` resolves to. -/
def asArr : JV → List String
  | .arr l => l
  | _ => []

/-- Read a provider value as a plain string (the balance hex string). -/
def jvText : JV → String
  | .str s => s
  | _ => ""

/-- Model of `req.params?.f`: optional chaining through the optional params object. -/
def paramField (p : Option Params) (f : Params → Option String) :
    Option String :=
  p.bind f

/-- The body of the dispatcher's `try` block: one wallet-provider
interaction per action, following `processWalletRequest`'s `switch`.
Errors carry the window state at throw time (the source mutates `window`
in place, so mutations made before a throw persist). -/
def runAction (eth : Eth) (win : WindowState) (req : AdapterRequest) :
    Except (JErr × WindowState) (JV × WindowState) :=
  if eth.installed = false then
    .error (⟨none,
      "MetaMask not installed. Please install MetaMask to use this feature."⟩,
      win)
  else
    match req.action with
    | "CONNECT_WALLET" =>
      let win1 : WindowState := ⟨false, win.events⟩
      match eth.request "eth_requestAccounts" [] with
      | .error e => .error (e, win1)
      | .ok r => .ok (r, pushEvent win1 "wallet-connect")
    | "DISCONNECT_WALLET" =>
      -- the revocation request's outcome is ignored (`catch` swallows it)
      let win2 : WindowState := ⟨true, win.events⟩
      .ok (JV.obj [("status", "disconnected")],
        pushEvent win2 "wallet-disconnect")
    | "GET_ACCOUNTS" =>
      if win.walletDisconnected then .ok (JV.arr [], win)
      else
        match eth.request "eth_accounts" [] with
        | .error e => .error (e, win)
        | .ok r => .ok (r, pushEvent win "wallet-connect")
    | "GET_CHAIN_ID" =>
      match eth.request "eth_chainId" [] with
      | .error e => .error (e, win)
      | .ok r => .ok (r, win)
    | "GET_BALANCE" =>
      match eth.request "eth_accounts" [] with
      | .error e => .error (e, win)
      | .ok acc =>
        match asArr acc with
        | [] => .error (⟨none, "No accounts connected"⟩, win)
        | a0 :: _ =>
          match eth.request "eth_getBalance" [a0, "latest"] with
          | .error e => .error (e, win)
          | .ok bal => .ok (JV.balanceOf (jvText bal), win)
    | "SIGN_MESSAGE" =>
      if strTruthy (paramField req.params Params.message) = false then
        .error (⟨none, "Message is required for signing"⟩, win)
      else
        match eth.request "eth_accounts" [] with
        | .error e => .error (e, win)
        | .ok acc =>
          match asArr acc with
          | [] => .error (⟨none, "No accounts connected"⟩, win)
          | a0 :: _ =>
            match eth.request "personal_sign"
                [(paramField req.params Params.message).getD "", a0] with
            | .error e => .error (e, win)
            | .ok r => .ok (r, win)
    | "SIGN_TRANSACTION" =>
      if strTruthy (paramField req.params Params.transaction) = false then
        .error (⟨none, "Transaction is required for signing"⟩, win)
      else
        match eth.request "eth_signTransaction"
            [(paramField req.params Params.transaction).getD ""] with
        | .error e => .error (e, win)
        | .ok r => .ok (r, win)
    | "BROADCAST_TRANSACTION" =>
      if strTruthy (paramField req.params Params.transaction) = false then
        .error (⟨none, "Transaction is required for broadcasting"⟩, win)
      else
        match eth.request "eth_sendTransaction"
            [(paramField req.params Params.transaction).getD ""] with
        | .error e => .error (e, win)
        | .ok r => .ok (r, win)
    | "SWITCH_NETWORK" =>
      if strTruthy (paramField req.params Params.chainId) = false then
        .error (⟨none, "Chain ID is required for network switch"⟩, win)
      else
        let cid := (paramField req.params Params.chainId).getD ""
        match eth.request "wallet_switchEthereumChain" [cid] with
        | .ok _ =>
          .ok (JV.obj [("chainId", cid), ("status", "switched")],
            pushEvent win "wallet-network-changed")
        | .error e =>
          if e.code = some 4902 then
            if strTruthy (paramField req.params Params.networkConfig) then
              match eth.request "wallet_addEthereumChain"
                  [(paramField req.params Params.networkConfig).getD ""] with
              | .error e2 => .error (e2, win)
              | .ok _ =>
                .ok (JV.obj [("chainId", cid),
                  ("status", "added_and_switched")],
                  pushEvent win "wallet-network-changed")
            else
              .error (⟨none,
                "Network not found and no network config provided"⟩, win)
          else .error (e, win)
    | "NETWORK_SWITCHED_EVENT" =>
      .ok (JV.obj [("status", "event_dispatched")],
        pushEvent win "NETWORK_SWITCHED_EVENT")
    | other => .error (⟨none, "Unsupported action: " ++ other⟩, win)

/-- Model of `processWalletRequest`: runs the action and normalizes the outcome into
an `AdapterResponse` that starts from
`\x7brequestId, success: false, data: null, error: undefined\x7d`; on
success it sets `success` and `data`; on a caught error it sets `error` to
`err.message or 'Wallet operation failed'` and leaves `data` at `null`. -/
def processWalletRequest (eth : Eth) (win : WindowState)
    (req : AdapterRequest) : AdapterResponse × WindowState :=
  match runAction eth win req with
  | .ok (result, win2) => (⟨req.requestId, true, .val result, none⟩, win2)
  | .error (e, win2) =>
    (⟨req.requestId, false, .null,
      some (if e.message = "" then "Wallet operation failed" else e.message)⟩,
      win2)

/-- A raw inbound object on the channel: every property possibly absent
(the source only assumes a shape after its own structural checks). -/
structure RawMessage where
  requestId : Option String
  action : Option String
  chain : Option String
  params : Option Params
  timestamp : Option Int
  nonce : Option String
  signature : Option String
  widgetSecret : Option String
deriving DecidableEq

/-- The raw `event.data` of a channel message: either not an object at all
(`null`, a primitive, ...) or an object with possibly-absent properties. -/
inductive InboundData where
  | nonObject
  | object (m : RawMessage)
deriving DecidableEq

/-- The unchecked `message as AuthenticatedMessage` cast: properties that
are absent at runtime are modelled by the JS-falsy defaults; the truthiness
guards in `handleSecureMessage` ensure the authentication-relevant fields
are present whenever this value reaches `verifyIncomingMessage`. -/
def toAuthenticated (m : RawMessage) : AuthenticatedMessage :=
  ⟨m.requestId.getD "", m.action.getD "", m.chain.getD "", m.params,
   m.timestamp.getD 0, m.nonce.getD "", m.signature.getD ""⟩

/-- Model of `stripAuthenticationFields`: removes `timestamp`, `nonce`, `signature`,
keeping the clean request for the dispatcher. -/
def stripAuthenticationFields (m : AuthenticatedMessage) : AdapterRequest :=
  ⟨m.requestId, m.action, m.chain, m.params⟩

/-- A message posted back on the channel: the unsigned exchange
acknowledgment, the unsigned no-secret precondition error, or a signed
secure response. -/
inductive Posted where
  | ack (requestId : String) (dataMessage : String)
  | precondError (requestId : String) (error : String)
  | secure (r : SecureResponse)
deriving DecidableEq

/-- The observable outcome of one `handleSecureMessage` invocation:
authenticator state after the call, window state, what was posted back (if
anything), the secret handed to `onSharedSecretReceived` (if invoked), and
the request forwarded to the Action Dispatcher (if any). -/
structure HandleResult where
  auth : MessageAuthenticator
  window : WindowState
  posted : Option Posted
  callback : Option String
  dispatched : Option AdapterRequest
deriving DecidableEq

/-- The body of the unsigned precondition error response. -/
def securityErrorMsg : String :=
  "SECURITY_ERROR: Shared secret not established. Widget must initialize secure communication first via EXCHANGE_SHARED_SECRET action."

/-- The `data.message` of the unsigned exchange acknowledgment. -/
def ackDataMessage : String := "Shared secret received"

/-- The tail of the pipeline after successful validation: run the
dispatcher, then `createSecureResponse` (which rethrows any signing error,
so when `signResponse` fails nothing is posted — the exception propagates
past `postMessage`). -/
def respondSigned (hmac : String → String → String) (now : Int)
    (a : MessageAuthenticator) (eth : Eth) (win : WindowState)
    (req : AdapterRequest) : Option Posted × WindowState :=
  let pr := processWalletRequest eth win req
  match signResponse hmac now a pr.1 with
  | .error _ => (none, pr.2)
  | .ok sr => (some (.secure sr), pr.2)

/-- Model of `handleSecureMessage`: structural requestId check (silent drop),
secret-exchange short circuit (unsigned ack, callback), no-secret
precondition (unsigned error), structural presence of the authentication
fields (silent drop), cryptographic verification (silent drop on failure),
then dispatch and signed response. -/
def handleSecureMessage (hmac : String → String → String) (now : Int)
    (eth : Eth) (a : MessageAuthenticator) (win : WindowState)
    (ev : InboundData) : HandleResult :=
  match ev with
  | .nonObject => ⟨a, win, none, none, none⟩
  | .object m =>
    if strTruthy m.requestId = false then ⟨a, win, none, none, none⟩
    else if m.action = some "EXCHANGE_SHARED_SECRET" ∧
        strTruthy m.widgetSecret = true then
      let ws := m.widgetSecret.getD ""
      ⟨setSharedSecret a ws, win,
        some (.ack (m.requestId.getD "") ackDataMessage), some ws, none⟩
    else if a.sharedSecret = "" then
      ⟨a, win, some (.precondError (m.requestId.getD "") securityErrorMsg),
        none, none⟩
    else if (intTruthy m.timestamp && strTruthy m.nonce &&
        strTruthy m.signature) = false then
      ⟨a, win, none, none, none⟩
    else
      let msg := toAuthenticated m
      let vr := verifyIncomingMessage hmac now a msg
      if vr.1 = false then ⟨vr.2, win, none, none, none⟩
      else
        let req := stripAuthenticationFields msg
        let rs := respondSigned hmac now vr.2 eth win req
        ⟨vr.2, rs.2, rs.1, none, some req⟩

/-- Widget-side construction of a correctly signed message: the signature
is the MAC of the canonical serialization of the other fields. -/
def mkSignedRaw (hmac : String → String → String)
    (secret requestId action chain : String) (params : Option Params)
    (timestamp : Int) (nonce : String) : RawMessage :=
  ⟨some requestId, some action, some chain, params, some timestamp,
   some nonce,
   some (hmac
     (serializeUnsigned ⟨requestId, action, chain, params, timestamp, nonce, ""⟩)
     secret),
   none⟩

/-- At-rest authenticator states of the sustained-traffic scenario: the
adapter starts from the fresh singleton, may install secrets and adjust the
freshness window, and each handled inbound message is followed by the
host's `cleanupNonces()` control call. -/
inductive ReachableAtRest : MessageAuthenticator → Prop
  | start : ReachableAtRest MessageAuthenticator.start
  | setSecret (a : MessageAuthenticator) (s : String) :
      ReachableAtRest a → ReachableAtRest (setSharedSecret a s)
  | setAge (a : MessageAuthenticator) (ms : Int) :
      ReachableAtRest a → ReachableAtRest (setMaxMessageAge a ms)
  | handle (a : MessageAuthenticator) (hmac : String → String → String)
      (now : Int) (eth : Eth) (win : WindowState) (ev : InboundData) :
      ReachableAtRest a →
      ReachableAtRest
        (cleanupOldNonces (handleSecureMessage hmac now eth a win ev).auth)

/-- A concrete deterministic keyed-hash stand-in used for the concrete
evaluations below (the development's theorems hold for every `hmac`). -/
def hmacModel (message secret : String) : String :=
  "MAC(" ++ message ++ "," ++ secret ++ ")"

/-- A concrete keyed authenticator state with an empty ledger. -/
def secret0 : String := "host-secret"

/-- A concrete authenticator holding `secret0`. -/
def a0 : MessageAuthenticator := ⟨secret0, [], 300000⟩

/-- A concrete window state. -/
def win0 : WindowState := ⟨false, []⟩

/-- A concrete environment without an installed wallet provider. -/
def eth0 : Eth := ⟨false, fun _ _ => .error ⟨none, "no provider"⟩⟩

/-- A concrete clean request. -/
def req0 : AdapterRequest := ⟨"r0", "GET_CHAIN_ID", "eth", none⟩

/-- A concrete message correctly signed under `secret0` via `hmacModel`. -/
def m1 : AuthenticatedMessage :=
  ⟨"r1", "GET_CHAIN_ID", "eth", none, 5, "n1",
   hmacModel (serializeUnsigned ⟨"r1", "GET_CHAIN_ID", "eth", none, 5, "n1", ""⟩)
     secret0⟩

lemma mem_setInsert_self (x : String) (l : List String) : x ∈ setInsert x l := by
  unfold setInsert
  split
  · assumption
  · exact List.mem_cons_self x l

/-- Claim C1: for every installed shared secret and every message whose
signature is the HMAC of the canonical serialization of its other fields,
whose timestamp is within `maxMessageAge` of verification time, and whose
nonce is not yet in the ledger, `verifyIncomingMessage` returns true on the
first call, and calling it again with the identical message (at any
verification time) returns false, the nonce having been recorded. -/
theorem claim1_verify_accepts_then_rejects_replay
    (hmac : String → String → String) (now now2 : Int)
    (a : MessageAuthenticator) (m : AuthenticatedMessage)
    (hsec : a.sharedSecret ≠ "")
    (hsig : m.signature = hmac (serializeUnsigned m) a.sharedSecret)
    (hfresh : |now - m.timestamp| ≤ a.maxMessageAge)
    (hnonce : m.nonce ∉ a.usedNonces) :
    (verifyIncomingMessage hmac now a m).1 = true ∧
    (verifyIncomingMessage hmac now2
      (verifyIncomingMessage hmac now a m).2 m).1 = false := by
  have ht : ¬ a.maxMessageAge < |now - m.timestamp| := not_lt.mpr hfresh
  have hs : ¬ hmac (serializeUnsigned m) a.sharedSecret ≠ m.signature := by
    simp [hsig]
  refine ⟨?_, ?_⟩
  · simp only [verifyIncomingMessage, if_neg hsec, if_neg ht, if_neg hnonce,
      if_neg hs]
  · simp only [verifyIncomingMessage, if_neg hsec, if_neg ht, if_neg hnonce,
      if_neg hs]
    by_cases hts : a.maxMessageAge < |now2 - m.timestamp|
    · simp [verifyIncomingMessage, hsec, hts]
    · simp [verifyIncomingMessage, hsec, hts, mem_setInsert_self]

theorem claim1_witness :
    a0.sharedSecret ≠ "" ∧
    m1.signature = hmacModel (serializeUnsigned m1) a0.sharedSecret ∧
    |(5 : Int) - m1.timestamp| ≤ a0.maxMessageAge ∧
    m1.nonce ∉ a0.usedNonces ∧
    ((verifyIncomingMessage hmacModel 5 a0 m1).1 = true ∧
     (verifyIncomingMessage hmacModel 5
       (verifyIncomingMessage hmacModel 5 a0 m1).2 m1).1 = false) :=
  ⟨by decide, rfl, by decide, by decide,
   claim1_verify_accepts_then_rejects_replay hmacModel 5 5 a0 m1
     (by decide) rfl (by decide) (by decide)⟩

/-- Claim C2: every message whose timestamp differs from the
verification-time clock by more than `maxMessageAge` in either direction is
rejected by `verifyIncomingMessage`, regardless of its signature, its nonce,
or the rest of the authenticator state. -/
theorem claim2_verify_rejects_stale_timestamp
    (hmac : String → String → String) (now : Int)
    (a : MessageAuthenticator) (m : AuthenticatedMessage)
    (hstale : a.maxMessageAge < |now - m.timestamp|) :
    (verifyIncomingMessage hmac now a m).1 = false := by
  by_cases hsec : a.sharedSecret = ""
  · simp [verifyIncomingMessage, hsec]
  · simp [verifyIncomingMessage, hsec, hstale]

theorem claim2_witness :
    a0.maxMessageAge < |(400006 : Int) - m1.timestamp| ∧
    (verifyIncomingMessage hmacModel 400006 a0 m1).1 = false :=
  ⟨by decide,
   claim2_verify_rejects_stale_timestamp hmacModel 400006 a0 m1 (by decide)⟩

/-- Claim C5: `setSharedSecret` replaces the active secret and empties the
nonce ledger for every prior state; consequently a message whose signature
was computed under a different previously active secret `S2` — one on which
the MAC actually differs from the MAC under the new secret `S1` — fails
`verifyIncomingMessage` after the rotation. -/
theorem claim5_setSecret_resets_and_rotated_secret_rejects :
    (∀ (b : MessageAuthenticator) (s : String),
      setSharedSecret b s = ⟨s, [], b.maxMessageAge⟩) ∧
    ∀ (hmac : String → String → String) (now : Int)
      (a : MessageAuthenticator) (S1 S2 : String) (m : AuthenticatedMessage),
      m.signature = hmac (serializeUnsigned m) S2 →
      hmac (serializeUnsigned m) S1 ≠ hmac (serializeUnsigned m) S2 →
      (verifyIncomingMessage hmac now (setSharedSecret a S1) m).1 = false := by
  refine ⟨fun b s => rfl, ?_⟩
  intro hmac now a S1 S2 m hsig hdiff
  by_cases hs1 : S1 = ""
  · simp [verifyIncomingMessage, setSharedSecret, hs1]
  · by_cases hts : a.maxMessageAge < |now - m.timestamp|
    · simp [verifyIncomingMessage, setSharedSecret, hs1, hts]
    · simp [verifyIncomingMessage, setSharedSecret, hs1, hts, hsig, hdiff]

/-- A concrete message correctly signed under the rotated-out secret "s2". -/
def m2 : AuthenticatedMessage :=
  ⟨"r2", "GET_ACCOUNTS", "eth", none, 5, "n2",
   hmacModel (serializeUnsigned ⟨"r2", "GET_ACCOUNTS", "eth", none, 5, "n2", ""⟩)
     "s2"⟩

theorem claim5_witness :
    m2.signature = hmacModel (serializeUnsigned m2) "s2" ∧
    hmacModel (serializeUnsigned m2) "s1" ≠ hmacModel (serializeUnsigned m2) "s2" ∧
    (verifyIncomingMessage hmacModel 5 (setSharedSecret a0 "s1") m2).1 = false :=
  ⟨rfl, by decide,
   claim5_setSecret_resets_and_rotated_secret_rejects.2 hmacModel 5 a0 "s1" "s2"
     m2 rfl (by decide)⟩

/-- Claim C10: whenever `verifyIncomingMessage` returns false — for any of
its failure reasons — the authenticator state is unchanged; in particular
the message's nonce is not added to the ledger. -/
theorem claim10_verify_failure_preserves_state
    (hmac : String → String → String) (now : Int)
    (a : MessageAuthenticator) (m : AuthenticatedMessage)
    (hfail : (verifyIncomingMessage hmac now a m).1 = false) :
    (verifyIncomingMessage hmac now a m).2 = a := by
  by_cases h1 : a.sharedSecret = ""
  · simp [verifyIncomingMessage, h1]
  · by_cases h2 : a.maxMessageAge < |now - m.timestamp|
    · simp [verifyIncomingMessage, h1, h2]
    · by_cases h3 : m.nonce ∈ a.usedNonces
      · simp [verifyIncomingMessage, h1, h2, h3]
      · by_cases h4 : hmac (serializeUnsigned m) a.sharedSecret ≠ m.signature
        · simp [verifyIncomingMessage, h1, h2, h3, h4]
        · exfalso
          simp [verifyIncomingMessage, h1, h2, h3, h4] at hfail

theorem claim10_witness :
    (verifyIncomingMessage hmacModel 5 MessageAuthenticator.start m1).1 = false ∧
    (verifyIncomingMessage hmacModel 5 MessageAuthenticator.start m1).2 =
      MessageAuthenticator.start :=
  ⟨rfl,
   claim10_verify_failure_preserves_state hmacModel 5
     MessageAuthenticator.start m1 rfl⟩

/-- Claim C3: while no shared secret is installed, every structurally valid
message (truthy `requestId`) whose action is not the secret-exchange action
is answered with the explicit unsigned precondition error and never reaches
the Action Dispatcher, while a schema-conforming `EXCHANGE_SHARED_SECRET`
message (carrying a `widgetSecret`) is acknowledged even in this
zero-prior-state condition. -/
theorem claim3_unkeyed_rejects_actions_acks_exchange
    (hmac : String → String → String) (now : Int) (eth : Eth)
    (a : MessageAuthenticator) (win : WindowState) (m : RawMessage)
    (hsec : a.sharedSecret = "") (hrid : strTruthy m.requestId = true) :
    (m.action ≠ some "EXCHANGE_SHARED_SECRET" →
      handleSecureMessage hmac now eth a win (.object m) =
        ⟨a, win, some (.precondError (m.requestId.getD "") securityErrorMsg),
         none, none⟩) ∧
    (m.action = some "EXCHANGE_SHARED_SECRET" →
      strTruthy m.widgetSecret = true →
      handleSecureMessage hmac now eth a win (.object m) =
        ⟨setSharedSecret a (m.widgetSecret.getD ""), win,
         some (.ack (m.requestId.getD "") ackDataMessage),
         some (m.widgetSecret.getD ""), none⟩) := by
  have hreq : ¬ strTruthy m.requestId = false := by simp [hrid]
  constructor
  · intro hne
    have hex : ¬ (m.action = some "EXCHANGE_SHARED_SECRET" ∧
        strTruthy m.widgetSecret = true) := fun hc => hne hc.1
    simp only [handleSecureMessage, if_neg hreq, if_neg hex, if_pos hsec]
  · intro hact hws
    have hex : m.action = some "EXCHANGE_SHARED_SECRET" ∧
        strTruthy m.widgetSecret = true := ⟨hact, hws⟩
    simp only [handleSecureMessage, if_neg hreq, if_pos hex]

/-- A concrete action-bearing raw message arriving before any exchange. -/
def earlyRaw : RawMessage :=
  ⟨some "rid-e", some "GET_CHAIN_ID", some "eth", none, some 5, some "n-e",
   some "sig-e", none⟩

/-- A concrete schema-conforming exchange message. -/
def exchangeRaw : RawMessage :=
  ⟨some "rid-x", some "EXCHANGE_SHARED_SECRET", none, none, none, none, none,
   some "w-secret"⟩

theorem claim3_witness :
    MessageAuthenticator.start.sharedSecret = "" ∧
    strTruthy earlyRaw.requestId = true ∧
    strTruthy exchangeRaw.requestId = true ∧
    (handleSecureMessage hmacModel 5 eth0 MessageAuthenticator.start win0
        (.object earlyRaw) =
      ⟨MessageAuthenticator.start, win0,
       some (.precondError "rid-e" securityErrorMsg), none, none⟩) ∧
    handleSecureMessage hmacModel 5 eth0 MessageAuthenticator.start win0
        (.object exchangeRaw) =
      ⟨setSharedSecret MessageAuthenticator.start "w-secret", win0,
       some (.ack "rid-x" ackDataMessage), some "w-secret", none⟩ :=
  ⟨rfl, rfl, rfl,
   (claim3_unkeyed_rejects_actions_acks_exchange hmacModel 5 eth0
     MessageAuthenticator.start win0 earlyRaw rfl rfl).1 (by decide),
   (claim3_unkeyed_rejects_actions_acks_exchange hmacModel 5 eth0
     MessageAuthenticator.start win0 exchangeRaw rfl rfl).2 rfl rfl⟩

/-- Claim C4: every structurally valid message whose action is
`EXCHANGE_SHARED_SECRET` and which carries a (truthy) `widgetSecret` is
processed without authentication, for every prior authenticator state: the
carried secret is installed (resetting the ledger), the registered callback
receives the new secret, and an unsigned acknowledgment echoing the same
`requestId` is posted; the dispatcher is not invoked. -/
theorem claim4_exchange_installs_secret_and_acks
    (hmac : String → String → String) (now : Int) (eth : Eth)
    (a : MessageAuthenticator) (win : WindowState) (m : RawMessage)
    (hrid : strTruthy m.requestId = true)
    (hact : m.action = some "EXCHANGE_SHARED_SECRET")
    (hws : strTruthy m.widgetSecret = true) :
    handleSecureMessage hmac now eth a win (.object m) =
      ⟨setSharedSecret a (m.widgetSecret.getD ""), win,
       some (.ack (m.requestId.getD "") ackDataMessage),
       some (m.widgetSecret.getD ""), none⟩ := by
  have hreq : ¬ strTruthy m.requestId = false := by simp [hrid]
  have hex : m.action = some "EXCHANGE_SHARED_SECRET" ∧
      strTruthy m.widgetSecret = true := ⟨hact, hws⟩
  simp only [handleSecureMessage, if_neg hreq, if_pos hex]

theorem claim4_witness :
    strTruthy exchangeRaw.requestId = true ∧
    exchangeRaw.action = some "EXCHANGE_SHARED_SECRET" ∧
    strTruthy exchangeRaw.widgetSecret = true ∧
    handleSecureMessage hmacModel 5 eth0 a0 win0 (.object exchangeRaw) =
      ⟨setSharedSecret a0 "w-secret", win0,
       some (.ack "rid-x" ackDataMessage), some "w-secret", none⟩ :=
  ⟨rfl, rfl, rfl,
   claim4_exchange_installs_secret_and_acks hmacModel 5 eth0 a0 win0
     exchangeRaw rfl rfl rfl⟩

/-- Claim C7: `signResponse` propagates an error whenever no shared secret
is installed, and on the pipeline's signing path nothing is then posted on
the channel; when a secret is installed it returns the envelope extended
with a timestamp and a MAC over the canonical serialization of the envelope
fields plus timestamp. -/
theorem claim7_signResponse_requires_secret
    (hmac : String → String → String) (now : Int)
    (a : MessageAuthenticator) (r : AdapterResponse) :
    (a.sharedSecret = "" →
      signResponse hmac now a r =
        .error "No shared secret configured for signing response" ∧
      ∀ (eth : Eth) (win : WindowState) (req : AdapterRequest),
        (respondSigned hmac now a eth win req).1 = none) ∧
    (a.sharedSecret ≠ "" →
      signResponse hmac now a r =
        .ok ⟨r.requestId, r.success, r.data, r.error, now,
          hmac (serializeResponseData r.requestId r.success r.data r.error now)
            a.sharedSecret⟩) := by
  constructor
  · intro hsec
    refine ⟨by simp [signResponse, hsec], ?_⟩
    intro eth win req
    simp [respondSigned, signResponse, hsec]
  · intro hsec
    simp [signResponse, hsec]

/-- A concrete unsigned response envelope. -/
def r0 : AdapterResponse := ⟨"r0", false, .null, some "boom"⟩

theorem claim7_witness :
    MessageAuthenticator.start.sharedSecret = "" ∧
    (signResponse hmacModel 7 MessageAuthenticator.start r0 =
      .error "No shared secret configured for signing response") ∧
    (respondSigned hmacModel 7 MessageAuthenticator.start eth0 win0 req0).1 =
      none ∧
    a0.sharedSecret ≠ "" ∧
    signResponse hmacModel 7 a0 r0 =
      .ok ⟨"r0", false, .null, some "boom", 7,
        hmacModel (serializeResponseData "r0" false .null (some "boom") 7)
          a0.sharedSecret⟩ :=
  ⟨rfl,
   ((claim7_signResponse_requires_secret hmacModel 7
     MessageAuthenticator.start r0).1 rfl).1,
   ((claim7_signResponse_requires_secret hmacModel 7
     MessageAuthenticator.start r0).1 rfl).2 eth0 win0 req0,
   by decide,
   (claim7_signResponse_requires_secret hmacModel 7 a0 r0).2 (by decide)⟩

lemma cleanup_length_le (a : MessageAuthenticator) :
    (cleanupOldNonces a).usedNonces.length ≤ 1000 := by
  unfold cleanupOldNonces
  split
  · simp
  · next h => exact not_lt.mp h

/-- Claim C8: `cleanupOldNonces` clears the ledger entirely whenever its
size exceeds 1000 and leaves the authenticator unchanged otherwise; in the
sustained-traffic scenario — each handled message followed by the
`cleanupNonces()` control call — every reachable at-rest state holds at most
1000 nonces. -/
theorem claim8_ledger_bounded :
    (∀ a : MessageAuthenticator,
      (1000 < a.usedNonces.length →
        cleanupOldNonces a = ⟨a.sharedSecret, [], a.maxMessageAge⟩) ∧
      (a.usedNonces.length ≤ 1000 → cleanupOldNonces a = a)) ∧
    ∀ a : MessageAuthenticator, ReachableAtRest a →
      a.usedNonces.length ≤ 1000 := by
  constructor
  · intro a
    constructor
    · intro h
      simp [cleanupOldNonces, h]
    · intro h
      simp [cleanupOldNonces, not_lt.mpr h]
  · intro a h
    induction h with
    | start => simp [MessageAuthenticator.start]
    | setSecret b s _ _ => simp [setSharedSecret]
    | setAge b ms _ ih => simpa [setMaxMessageAge] using ih
    | handle b hmac now eth win ev _ _ => exact cleanup_length_le _

/-- A concrete over-full authenticator (1001 ledger entries). -/
def aBig : MessageAuthenticator :=
  ⟨"host-secret", List.replicate 1001 "n", 300000⟩

lemma aBig_ledger_length : 1000 < aBig.usedNonces.length := by
  have h : aBig.usedNonces.length = 1001 := List.length_replicate 1001 "n"
  rw [h]
  decide

theorem claim8_witness :
    1000 < aBig.usedNonces.length ∧
    cleanupOldNonces aBig = ⟨"host-secret", [], 300000⟩ ∧
    a0.usedNonces.length ≤ 1000 ∧
    cleanupOldNonces a0 = a0 ∧
    MessageAuthenticator.start.usedNonces.length ≤ 1000 :=
  ⟨aBig_ledger_length, (claim8_ledger_bounded.1 aBig).1 aBig_ledger_length,
   by decide, (claim8_ledger_bounded.1 a0).2 (by decide),
   claim8_ledger_bounded.2 MessageAuthenticator.start .start⟩

/-- Counterexample to claim C6 as stated: with a shared secret installed, a
message that lacks all of the `timestamp`, `nonce`, and `signature` fields
is nevertheless answered — the secret-exchange short circuit posts an
unsigned acknowledgment before the authentication-field check runs. -/
theorem claim6_counterexample_exchange_answered_despite_missing_fields :
    a0.sharedSecret ≠ "" ∧
    exchangeRaw.timestamp = none ∧ exchangeRaw.nonce = none ∧
    exchangeRaw.signature = none ∧
    (handleSecureMessage hmacModel 0 eth0 a0 win0
      (.object exchangeRaw)).posted = some (.ack "rid-x" ackDataMessage) :=
  ⟨by decide, rfl, rfl, rfl, rfl⟩

/-- Claim C6 (amended): for every inbound message received while a shared
secret is installed and which is not a secret-exchange message (action
`EXCHANGE_SHARED_SECRET` carrying a truthy `widgetSecret`), if the message
is not a structurally valid object carrying a requestId, or lacks any of
the timestamp, nonce, or signature fields, or fails Authenticator
verification, then no response of any kind is emitted on the channel. -/
theorem claim6_amended_silent_drop
    (hmac : String → String → String) (now : Int) (eth : Eth)
    (a : MessageAuthenticator) (win : WindowState)
    (hsec : a.sharedSecret ≠ "") :
    (handleSecureMessage hmac now eth a win .nonObject).posted = none ∧
    ∀ m : RawMessage,
      ¬(m.action = some "EXCHANGE_SHARED_SECRET" ∧
        strTruthy m.widgetSecret = true) →
      (strTruthy m.requestId = false ∨
       intTruthy m.timestamp = false ∨
       strTruthy m.nonce = false ∨
       strTruthy m.signature = false ∨
       (verifyIncomingMessage hmac now a (toAuthenticated m)).1 = false) →
      (handleSecureMessage hmac now eth a win (.object m)).posted = none := by
  refine ⟨rfl, ?_⟩
  intro m hex hdrop
  by_cases hreq : strTruthy m.requestId = false
  · simp [handleSecureMessage, hreq]
  · by_cases hf : (intTruthy m.timestamp && strTruthy m.nonce &&
        strTruthy m.signature) = false
    · simp only [handleSecureMessage, if_neg hreq, if_neg hex, if_neg hsec,
        if_pos hf]
    · have hfields : (intTruthy m.timestamp && strTruthy m.nonce &&
          strTruthy m.signature) = true := by
        cases hb : (intTruthy m.timestamp && strTruthy m.nonce &&
          strTruthy m.signature)
        · exact absurd hb hf
        · rfl
      have hparts := hfields
      rw [Bool.and_eq_true, Bool.and_eq_true] at hparts
      have hv : (verifyIncomingMessage hmac now a (toAuthenticated m)).1 =
          false := by
        rcases hdrop with h | h | h | h | h
        · exact absurd h hreq
        · rw [hparts.1.1] at h
          exact absurd h (by decide)
        · rw [hparts.1.2] at h
          exact absurd h (by decide)
        · rw [hparts.2] at h
          exact absurd h (by decide)
        · exact h
      simp only [handleSecureMessage, if_neg hreq, if_neg hex, if_neg hsec,
        if_neg hf]
      simp [hv]

/-- A concrete message with all authentication fields present but a wrong
signature. -/
def badSigRaw : RawMessage :=
  ⟨some "rid-b", some "GET_CHAIN_ID", some "eth", none, some 5, some "n-b",
   some "bad", none⟩

theorem claim6_witness :
    a0.sharedSecret ≠ "" ∧
    ¬(badSigRaw.action = some "EXCHANGE_SHARED_SECRET" ∧
      strTruthy badSigRaw.widgetSecret = true) ∧
    (verifyIncomingMessage hmacModel 5 a0 (toAuthenticated badSigRaw)).1 =
      false ∧
    (handleSecureMessage hmacModel 5 eth0 a0 win0 .nonObject).posted = none ∧
    (handleSecureMessage hmacModel 5 eth0 a0 win0
      (.object badSigRaw)).posted = none :=
  ⟨by decide, by decide, rfl,
   (claim6_amended_silent_drop hmacModel 5 eth0 a0 win0 (by decide)).1,
   (claim6_amended_silent_drop hmacModel 5 eth0 a0 win0 (by decide)).2
     badSigRaw (by decide) (Or.inr (Or.inr (Or.inr (Or.inr rfl))))⟩

lemma processWalletRequest_spec (eth : Eth) (win : WindowState)
    (req : AdapterRequest) :
    ((processWalletRequest eth win req).1.requestId = req.requestId) ∧
    ((processWalletRequest eth win req).1.error.isSome = true ↔
      (processWalletRequest eth win req).1.success = false) ∧
    ((processWalletRequest eth win req).1.success = true →
      DataField.present (processWalletRequest eth win req).1.data = true) ∧
    ((processWalletRequest eth win req).1.success = false →
      (processWalletRequest eth win req).1.data = DataField.null) := by
  cases hrun : runAction eth win req with
  | ok p =>
    obtain ⟨result, win2⟩ := p
    simp [processWalletRequest, hrun, DataField.present]
  | error p =>
    obtain ⟨e, win2⟩ := p
    simp [processWalletRequest, hrun]

/-- Claim C9 (amended): in every signed `SecureResponse` produced for a
validated request, `requestId` echoes the request's `requestId`, the
`error` field is present if and only if `success` is false, the `data`
field holds a value when `success` is true, and on failure `data` is
`null` — an explicitly present null member, not an absent one. -/
theorem claim9_amended_envelope
    (eth : Eth) (win : WindowState) (req : AdapterRequest)
    (hmac : String → String → String) (now : Int)
    (a : MessageAuthenticator) (sr : SecureResponse)
    (hok : signResponse hmac now a (processWalletRequest eth win req).1 =
      .ok sr) :
    sr.requestId = req.requestId ∧
    (sr.error.isSome = true ↔ sr.success = false) ∧
    (sr.success = true → DataField.present sr.data = true) ∧
    (sr.success = false → sr.data = DataField.null) := by
  have hspec := processWalletRequest_spec eth win req
  unfold signResponse at hok
  split at hok
  · simp at hok
  · injection hok with h
    subst h
    exact ⟨hspec.1, hspec.2.1, hspec.2.2.1, hspec.2.2.2⟩

/-- The concrete signed response the pipeline produces for `req0` when no
provider is installed. -/
def sr9 : SecureResponse :=
  ⟨"r0", false, .null,
   some "MetaMask not installed. Please install MetaMask to use this feature.",
   7,
   hmacModel (serializeResponseData "r0" false .null
     (some "MetaMask not installed. Please install MetaMask to use this feature.")
     7) secret0⟩

theorem claim9_witness :
    signResponse hmacModel 7 a0 (processWalletRequest eth0 win0 req0).1 =
      .ok sr9 ∧
    (sr9.requestId = req0.requestId ∧
     (sr9.error.isSome = true ↔ sr9.success = false) ∧
     (sr9.success = true → DataField.present sr9.data = true) ∧
     (sr9.success = false → sr9.data = DataField.null)) :=
  ⟨rfl, claim9_amended_envelope eth0 win0 req0 hmacModel 7 a0 sr9 rfl⟩

/-- A concrete correctly signed request whose wallet operation fails. -/
def raw9 : RawMessage :=
  mkSignedRaw hmacModel secret0 "rid-9" "GET_CHAIN_ID" "eth" none 5 "n9"

/-- The signed failure response the pipeline produces for `raw9`. -/
def sr9c : SecureResponse :=
  ⟨"rid-9", false, .null,
   some "MetaMask not installed. Please install MetaMask to use this feature.",
   5,
   hmacModel (serializeResponseData "rid-9" false .null
     (some "MetaMask not installed. Please install MetaMask to use this feature.")
     5) secret0⟩

/-- Counterexample to claim C9 as stated: a validated request whose wallet
operation fails yields a signed `SecureResponse` with `success = false`
whose `data` field is `null` — present (serialized as `null`), not absent —
so "data is present iff success" fails. -/
theorem claim9_counterexample_data_null_on_failure :
    (handleSecureMessage hmacModel 5 eth0 a0 win0 (.object raw9)).posted =
      some (.secure sr9c) ∧
    sr9c.success = false ∧
    DataField.present sr9c.data = true :=
  ⟨rfl, rfl, rfl⟩

end SecureAdapter
